import Mathlib

/-!
Verification of the `deimos` oscillation-calculator wrapper
(`src/deimos/wrapper/osc_calculator.py`, class `OscCalculator`).

The Python code is shallowly embedded below.  Floating-point values are
modelled as exact rationals, numpy arrays as lists or index functions with an
explicit shape, and Python exceptions as `Except` values carrying the error
kind and the assertion message (if any).  Calls into the external solver
libraries (nuSQuIDS, prob3's BargerPropagator, and the project's
DensityMatrixOscSolver, none of which are part of the wrapper source) are
modelled as abstract operations: either as entries of an emitted call trace,
or as function parameters, or (where the spec pins their behaviour down) as
explicitly spec-modelled state.
-/

namespace Deimos

/-- A Python exception, as raised by the wrapper code.  `assertionError`
carries the optional message of the failing `assert` statement. -/
inductive PyError where
  | assertionError (msg : Option String)
  | exception (msg : String)
  | typeError
  | indexError
  | attributeError
  | notImplementedCall
  deriving DecidableEq, Repr

instance {ε α : Type} [DecidableEq ε] [DecidableEq α] : DecidableEq (Except ε α) := fun a b =>
  match a, b with
  | .ok x, .ok y => if h : x = y then .isTrue (by rw [h]) else .isFalse (by simp [h])
  | .error x, .error y => if h : x = y then .isTrue (by rw [h]) else .isFalse (by simp [h])
  | .ok _, .error _ => .isFalse (by simp)
  | .error _, .ok _ => .isFalse (by simp)

/-- A numpy matrix of (possibly complex) floats: its shape together with the
real and imaginary part of each entry, modelled as exact rationals.  Entries
outside the shape are irrelevant. -/
structure CMatrix where
  rows : Nat
  cols : Nat
  re : Nat → Nat → ℚ
  im : Nat → Nat → ℚ

/-- Model of `np.all` of an entrywise predicate over an `n` by `n` index range. -/
def allEntries (n : Nat) (p : Nat → Nat → Bool) : Bool :=
  (List.range n).all fun i => (List.range n).all fun j => p i j

/-- Check `assert D.shape == (9, 9)` (osc_calculator.py line 893). -/
def shapeOk9 (D : CMatrix) : Bool :=
  D.rows == 9 && D.cols == 9

/-- Check `assert np.all( D.imag == 0. )` (line 898). -/
def imagZero (D : CMatrix) : Bool :=
  allEntries 9 fun i j => D.im i j == 0

/-- Check `assert np.all( D >= 0. )` (line 901). -/
def entriesNonneg (D : CMatrix) : Bool :=
  allEntries 9 fun i j => decide (0 ≤ D.re i j)

/-- The 28 off-diagonal index pairs `(i, j)` with `1 ≤ i < j ≤ 8` whose two
mirror entries the code requires to match (lines 915-970). -/
def offDiagPairs : List (Nat × Nat) :=
  [(1,2),(1,3),(1,4),(1,5),(1,6),(1,7),(1,8),
   (2,3),(2,4),(2,5),(2,6),(2,7),(2,8),
   (3,4),(3,5),(3,6),(3,7),(3,8),
   (4,5),(4,6),(4,7),(4,8),
   (5,6),(5,7),(5,8),
   (6,7),(6,8),
   (7,8)]

/-- The `assert D[j,i] == b_ij` checks of lines 915-970.  All 28 asserts carry
no message, hence raise the identical error; they are folded into one
conjunction, in source order. -/
def symOk (D : CMatrix) : Bool :=
  offDiagPairs.all fun p => D.re p.2 p.1 == D.re p.1 p.2

/-- Diagonal element `g_i = D[i,i]` (lines 904-911). -/
def gDiag (D : CMatrix) (i : Nat) : ℚ := D.re i i

/-- Off-diagonal element `b_ij = D[i,j]` (lines 915-970). -/
def bOff (D : CMatrix) (i j : Nat) : ℚ := D.re i j

/-- Value `a1 = -g1 + g2 + g3 - (g8/3.)` (line 973). -/
def aVal1 (D : CMatrix) : ℚ := -(gDiag D 1) + gDiag D 2 + gDiag D 3 - gDiag D 8 / 3

/-- Value `a2 = g1 - g2 + g3 - (g8/3.)` (line 974). -/
def aVal2 (D : CMatrix) : ℚ := gDiag D 1 - gDiag D 2 + gDiag D 3 - gDiag D 8 / 3

/-- Value `a3 = g1 + g2 - g3 - (g8/3.)` (line 975). -/
def aVal3 (D : CMatrix) : ℚ := gDiag D 1 + gDiag D 2 - gDiag D 3 - gDiag D 8 / 3

/-- Value `a4 = -g4 + g5 + g3 + (2.*g8/3.) - (2.*b38/np.sqrt(3.))` (line 977).
The floating-point constant `np.sqrt(3.)` is abstracted as the parameter
`sqrt3`; no settled claim depends on its value. -/
def aVal4 (sqrt3 : ℚ) (D : CMatrix) : ℚ :=
  -(gDiag D 4) + gDiag D 5 + gDiag D 3 + 2 * gDiag D 8 / 3 - 2 * bOff D 3 8 / sqrt3

/-- Value `a5 = g4 - g5 + g3 + (2.*g8/3.) - (2.*b38/np.sqrt(3.))` (line 978). -/
def aVal5 (sqrt3 : ℚ) (D : CMatrix) : ℚ :=
  gDiag D 4 - gDiag D 5 + gDiag D 3 + 2 * gDiag D 8 / 3 - 2 * bOff D 3 8 / sqrt3

/-- Value `a6 = -g6 + g7 + g3 + (2.*g8/3.) + (2.*b38/np.sqrt(3.))` (line 979). -/
def aVal6 (sqrt3 : ℚ) (D : CMatrix) : ℚ :=
  -(gDiag D 6) + gDiag D 7 + gDiag D 3 + 2 * gDiag D 8 / 3 + 2 * bOff D 3 8 / sqrt3

/-- Value `a7 = g6 - g7 + g3 + (2.*g8/3.) + (2.*b38/np.sqrt(3.))` (line 980). -/
def aVal7 (sqrt3 : ℚ) (D : CMatrix) : ℚ :=
  gDiag D 6 - gDiag D 7 + gDiag D 3 + 2 * gDiag D 8 / 3 + 2 * bOff D 3 8 / sqrt3

/-- Value `a8 = -(g1/3.) - (g2/3.) - (g3/3.) + (2.*g4/3.) + (2.*g5/3.) + (2.*g6/3.)
+ (2.*g7/3.) - g8` (line 982). -/
def aVal8 (D : CMatrix) : ℚ :=
  -(gDiag D 1) / 3 - gDiag D 2 / 3 - gDiag D 3 / 3 + 2 * gDiag D 4 / 3
    + 2 * gDiag D 5 / 3 + 2 * gDiag D 6 / 3 + 2 * gDiag D 7 / 3 - gDiag D 8

/-- Check `(4.*np.square(b12)) <= ( np.square(g3 - (g8/3.)) - np.square(g1 - g2) )`
(line 993). -/
def quad12Ok (D : CMatrix) : Bool :=
  decide (4 * bOff D 1 2 ^ 2 ≤ (gDiag D 3 - gDiag D 8 / 3) ^ 2 - (gDiag D 1 - gDiag D 2) ^ 2)

/-- Check `(4.*np.square(b13)) <= ( np.square(g2 - (g8/3.)) - np.square(g1 - g3) )`
(line 994). -/
def quad13Ok (D : CMatrix) : Bool :=
  decide (4 * bOff D 1 3 ^ 2 ≤ (gDiag D 2 - gDiag D 8 / 3) ^ 2 - (gDiag D 1 - gDiag D 3) ^ 2)

/-- Check `(4.*np.square(b23)) <= ( np.square(g1 - (g8/3.)) - np.square(g2 - g3) )`
(line 995). -/
def quad23Ok (D : CMatrix) : Bool :=
  decide (4 * bOff D 2 3 ^ 2 ≤ (gDiag D 1 - gDiag D 8 / 3) ^ 2 - (gDiag D 2 - gDiag D 3) ^ 2)

/-- Check `np.square( 4.*np.square(b38) + (g4/np.sqrt(3.)) + (g5/np.sqrt(3.))
- (g6/np.sqrt(3.)) - (g7/np.sqrt(3.)) ) <= (a3*a8)` (line 997). -/
def quadB38Ok (sqrt3 : ℚ) (D : CMatrix) : Bool :=
  decide ((4 * bOff D 3 8 ^ 2 + gDiag D 4 / sqrt3 + gDiag D 5 / sqrt3
      - gDiag D 6 / sqrt3 - gDiag D 7 / sqrt3) ^ 2 ≤ aVal3 D * aVal8 D)

/-- The `num_neutrinos == 3` body of `check_decoherence_D_matrix`
(osc_calculator.py lines 885-999): the checks in source order, each failing
`assert` raising an `AssertionError` carrying the message written in the
source (note: the `a6` check at line 989 carries the message
`Inequality failure (a1)`). -/
def check3flavor (sqrt3 : ℚ) (D : CMatrix) : Except PyError Unit :=
  if ¬ shapeOk9 D then .error (.assertionError none)
  else if ¬ imagZero D then .error (.assertionError none)
  else if ¬ entriesNonneg D then .error (.assertionError none)
  else if ¬ symOk D then .error (.assertionError none)
  else if ¬ (0 ≤ aVal1 D) then .error (.assertionError (some "Inequality failure (a1)"))
  else if ¬ (0 ≤ aVal2 D) then .error (.assertionError (some "Inequality failure (a2)"))
  else if ¬ (0 ≤ aVal3 D) then .error (.assertionError (some "Inequality failure (a3)"))
  else if ¬ (0 ≤ aVal4 sqrt3 D) then .error (.assertionError (some "Inequality failure (a4)"))
  else if ¬ (0 ≤ aVal5 sqrt3 D) then .error (.assertionError (some "Inequality failure (a5)"))
  else if ¬ (0 ≤ aVal6 sqrt3 D) then .error (.assertionError (some "Inequality failure (a1)"))
  else if ¬ (0 ≤ aVal7 sqrt3 D) then .error (.assertionError (some "Inequality failure (a7)"))
  else if ¬ (0 ≤ aVal8 D) then .error (.assertionError (some "Inequality failure (a8)"))
  else if ¬ quad12Ok D then .error (.assertionError none)
  else if ¬ quad13Ok D then .error (.assertionError none)
  else if ¬ quad23Ok D then .error (.assertionError none)
  else if ¬ quadB38Ok sqrt3 D then .error (.assertionError none)
  else .ok ()

/-- Function `check_decoherence_D_matrix` (osc_calculator.py lines 873-1003).  Returns
the list of lines printed to stdout together with the outcome: for
`num_neutrinos == 3` the full SU(3) check chain, otherwise only a printed
notice and unconditional acceptance (lines 1001-1003). -/
def check_decoherence_D_matrix (numNeutrinos : Nat) (sqrt3 : ℚ) (D : CMatrix) :
    List String × Except PyError Unit :=
  if numNeutrinos = 3 then
    ([], check3flavor sqrt3 D)
  else
    (["Checks on decoherence D matrix inequalities not yet implemented for a "
        ++ Nat.repr numNeutrinos ++ " neutrino system"],
     .ok ())

/-- The all-zero D matrix of shape `n*n` by `n*n`. -/
def zeroMatrix (n : Nat) : CMatrix :=
  ⟨n * n, n * n, fun _ _ => 0, fun _ _ => 0⟩

/-- The D matrix of shape `n*n` by `n*n` whose entries are all zero except the
diagonal entry at position `k`, which holds `-x`. -/
def negDiagMatrix (n : Nat) (k : Nat) (x : ℚ) : CMatrix :=
  ⟨n * n, n * n, fun i j => if i = k ∧ j = k then -x else 0, fun _ _ => 0⟩

/-!
## Layered propagation sequencer

`_calc_osc_prob_nusquids`, distance case, `matter == "layers"` branch
(osc_calculator.py lines 1809-1838).  The nuSQuIDS backend is external; the
sequencer is modelled by the trace of backend calls it issues.
-/

/-- One call into the nuSQuIDS backend object, as issued by the layered
sequencer: `Set_Body(ConstantDensity(density, efrac))`, `Set_Track(L_layer)`,
`Set_initial_state(...)`, `EvolveState()`. -/
inductive NsqOp where
  | setBody (density electronFraction : ℚ)
  | setTrack (lengthKm : ℚ)
  | setInitialState
  | evolveState
  deriving DecidableEq, Repr

/-- The layer loop of lines 1817-1838: iterate over the zipped
`(endpoint, density, electron fraction)` triples, carrying `L_so_far`,
emitting the backend calls made in each iteration. -/
def layerLoop (L : ℚ) : List (ℚ × ℚ × ℚ) → ℚ → List NsqOp
  | [], _ => []
  | (endpoint, density, efrac) :: rest, LsoFar =>
    -- line 1822: `if L_so_far > endpoint : break`
    if LsoFar > endpoint then []
    else
      -- line 1826-1828: clip the endpoint to L, then the segment length
      let endpointClipped := if L < endpoint then L else endpoint
      let Llayer := endpointClipped - LsoFar
      ([NsqOp.setBody density efrac, NsqOp.setTrack Llayer]
          ++ (if LsoFar = 0 then [NsqOp.setInitialState] else [])
          ++ [NsqOp.evolveState])
        ++ layerLoop L rest (LsoFar + Llayer)

/-- The `matter == "layers"` branch of `_calc_osc_prob_nusquids` for one
requested path length `L` (lines 1809-1838): first the coverage assert of
line 1815, then the layer loop.  Returns the trace of backend calls. -/
def calcLayersTrace (endpoints densities efracs : List ℚ) (L : ℚ) :
    Except PyError (List NsqOp) :=
  if h : endpoints = [] then
    .error .indexError -- `layer_endpoint_km[-1]` on an empty array
  else if endpoints.getLast h < L then
    .error (.assertionError (some "Matter layers do not cover the full baseline"))
  else
    .ok (layerLoop L (endpoints.zip (densities.zip efracs)) 0)

/-- Whether a backend call is an `EvolveState()` call. -/
def NsqOp.isEvolve : NsqOp → Bool
  | .evolveState => true
  | _ => false

/-- Number of `EvolveState()` calls in a backend trace. -/
def countEvolveCalls (ops : List NsqOp) : Nat :=
  (ops.filter NsqOp.isEvolve).length

/-- The layer decomposition in the words of the (amended) claim: one backend
evolve call per layer, with segment length `min(endpoint, L) - distance so
far`, the initial state supplied exactly on segments starting at distance
zero, and the covered distance advancing to `min(endpoint, L)`. -/
def layerTraceSpec (L : ℚ) : List (ℚ × ℚ × ℚ) → ℚ → List NsqOp
  | [], _ => []
  | (endpoint, density, efrac) :: rest, dist =>
    ([NsqOp.setBody density efrac, NsqOp.setTrack (min endpoint L - dist)]
        ++ (if dist = 0 then [NsqOp.setInitialState] else [])
        ++ [NsqOp.evolveState])
      ++ layerTraceSpec L rest (min endpoint L)

/-!
## Matter model configuration

`set_matter` (osc_calculator.py lines 324-659).  The persistent matter state
of the calculator is the `_matter_settings` dict; backend-object calls
(`Set_Body`, `Set_EarthModel`, ...) live outside the wrapper and do not touch
it.
-/

/-- The value bound to a `set_matter` keyword argument: a scalar float or a
one-dimensional numpy array. -/
inductive PyVal where
  | scalar (q : ℚ)
  | array (xs : List ℚ)
  deriving DecidableEq, Repr

/-- The `_matter_settings` dict of the calculator: the `matter` tag, plus the
three per-layer arrays that the `layers` branch stores for nusquids. -/
structure MatterSettings where
  matter : String
  layerEndpointKm : Option (List ℚ)
  matterDensityGPerCm3 : Option (List ℚ)
  electronFraction : Option (List ℚ)
  deriving DecidableEq, Repr

/-- The keyword arguments of a `set_matter` call (absent key = `none`). -/
structure MatterKw where
  matterDensityGPerCm3 : Option PyVal := none
  electronFraction : Option PyVal := none
  layerEndpointKm : Option PyVal := none
  radiusFractionArray : Option PyVal := none
  matterDensityArrayGPerCm3 : Option PyVal := none
  electronFractionArray : Option PyVal := none
  deriving DecidableEq, Repr

/-- The settings dict right after line 329, before any validation: only the
`matter` tag, all other keys absent. -/
def bareSettings (matter : String) : MatterSettings :=
  { matter := matter, layerEndpointKm := none,
    matterDensityGPerCm3 := none, electronFraction := none }

/-- Function `set_matter(matter, **kw)` (lines 324-659) as a transition on the stored
matter settings, paired with the call outcome.  Line 329 re-initialises
`_matter_settings` to the bare tag before any branch runs, so the `prev`
settings are discarded unconditionally.  External backend-object calls are
not part of the stored state.  (`matter is None` is folded into the string
tag `vacuum`; numpy `isinstance`/`ndim` checks on array arguments are the
`PyVal.array` pattern matches.) -/
def set_matter (tool : String) (atmospheric : Bool) (_prev : MatterSettings)
    (matter : String) (kw : MatterKw) : MatterSettings × Except PyError Unit :=
  let ms := bareSettings matter
  if matter = "vacuum" then
    (ms, .ok ())
  else if matter = "earth" then
    if tool = "nusquids" then
      if atmospheric then (ms, .ok ())
      else (ms, .error (.exception "earth is only an option in atmospheric mode"))
    else if tool = "deimos" then
      (ms, .error (.exception "deimos does have an Earth model"))
    else -- prob3: stores into its own settings dict, not _matter_settings
      (ms, .ok ())
  else if matter = "constant" then
    if kw.matterDensityGPerCm3.isNone then (ms, .error (.assertionError none))
    else if kw.electronFraction.isNone then (ms, .error (.assertionError none))
    else (ms, .ok ())
  else if matter = "variable" then
    if kw.radiusFractionArray.isNone then (ms, .error (.assertionError none))
    else if kw.matterDensityArrayGPerCm3.isNone then (ms, .error (.assertionError none))
    else if kw.electronFractionArray.isNone then (ms, .error (.assertionError none))
    else if tool = "nusquids" then (ms, .ok ())
    else (ms, .error (.exception "variable density matter model not implemented"))
  else if matter = "layers" then
    -- lines 628-630: presence asserts
    match kw.layerEndpointKm, kw.matterDensityGPerCm3, kw.electronFraction with
    | none, _, _ => (ms, .error (.assertionError none))
    | some _, none, _ => (ms, .error (.assertionError none))
    | some _, some _, none => (ms, .error (.assertionError none))
    | some ep, some md, some ef =>
      -- lines 633-634: the densities and electron fractions must be 1-d arrays
      match md, ef with
      | .scalar _, _ =>
        (ms, .error (.assertionError
          (some "matter_density_g_per_cm3 should be an array of float values in layers mode")))
      | .array _, .scalar _ =>
        (ms, .error (.assertionError
          (some "electron_fraction should be an array of float values in layers mode")))
      | .array mds, .array efs =>
        -- lines 635-636: `layer_endpoint_km` is accessed through `.size`
        match ep with
        | .scalar _ => (ms, .error .attributeError)
        | .array eps =>
          if eps.length ≠ efs.length then
            (ms, .error (.assertionError
              (some "layer_endpoint_km, matter_density_g_per_cm3 and electron_fraction do not have the same length")))
          else if eps.length ≠ mds.length then
            (ms, .error (.assertionError
              (some "layer_endpoint_km, matter_density_g_per_cm3 and electron_fraction do not have the same length")))
          -- line 639: endpoints must be ascending
          else if ¬ eps.Chain' (· ≤ ·) then
            (ms, .error (.assertionError (some "layer_endpoint_km must be ascending")))
          else if tool = "nusquids" then
            -- lines 643-645: store the layers for use during state evolution
            ({ matter := matter, layerEndpointKm := some eps,
               matterDensityGPerCm3 := some mds, electronFraction := some efs },
             .ok ())
          else
            -- lines 647-651: `raise NotImplemented(...)` for deimos/prob3
            -- (NotImplemented is not callable, so this raises at runtime)
            (ms, .error .notImplementedCall)
  else
    (ms, .error (.exception "Unrecognised matter"))

/-!
## Oscillation parameters: setters and getters

`set_mixing_angles` / `get_mixing_angles` (lines 663-704),
`set_mass_splittings` / `get_mass_splittings` (lines 731-771).
-/

/-- The `_prob3_settings` dict entries used by the angle/splitting
setters and getters.  The outer `Option` is key presence; the inner
`Option ℚ` is the stored Python value, which may itself be `None`. -/
structure Prob3Settings where
  theta12 : Option (Option ℚ) := none
  theta13 : Option (Option ℚ) := none
  theta23 : Option (Option ℚ) := none
  deltacp : Option (Option ℚ) := none
  deltam21 : Option (Option ℚ) := none
  deltam31 : Option (Option ℚ) := none
  deriving DecidableEq, Repr

/-- Modelled from the spec: the deimos `DensityMatrixOscSolver` object
(`deimos/density_matrix_osc_solver/density_matrix_osc_solver.py`, not under
the wrapper source) stores the mixing angles, CP phase and mass splittings
set on it, and its attributes/getters return the previously set values
(spec 4.1: getters return previously-set values; round-trip exact). -/
structure DeimosSolverState where
  thetaRad : Option (List ℚ) := none
  deltacp : Option ℚ := none
  massSplittings : Option (List ℚ) := none
  deriving DecidableEq, Repr

/-- The oscillation-parameter state held by one calculator instance (the
nusquids backend holds its parameters externally, so has no entry here). -/
structure CalcParams where
  prob3 : Prob3Settings := {}
  deimos : DeimosSolverState := {}
  deriving DecidableEq, Repr

/-- The per-tool storage part of `set_mixing_angles` (lines 675-691). -/
def set_mixing_angles_store (tool : String) (st : CalcParams) (theta12 : ℚ)
    (theta13 theta23 : Option ℚ) (deltacp : ℚ) : Except PyError CalcParams :=
  if tool = "nusquids" then
    .ok st -- Set_CPPhase / Set_MixingAngle on the external object
  else if tool = "deimos" then
    -- `np.array([ t for t in [theta12,theta13,theta23] if t is not None ])`
    .ok { st with deimos := { st.deimos with
            thetaRad := some ([theta12] ++ theta13.toList ++ theta23.toList),
            deltacp := some deltacp } }
  else
    .ok { st with prob3 := { st.prob3 with
            theta12 := some (some theta12), theta13 := some theta13,
            theta23 := some theta23, deltacp := some (some deltacp) } }

/-- Function `set_mixing_angles(theta12, theta13, theta23, deltacp)` (lines 663-691).
For nusquids the values go to the external solver object only. -/
def set_mixing_angles (tool : String) (numNeutrinos : Nat) (st : CalcParams)
    (theta12 : ℚ) (theta13 theta23 : Option ℚ) (deltacp : ℚ) :
    Except PyError CalcParams :=
  if numNeutrinos = 2 then
    if theta13.isSome then .error (.assertionError none)
    else if theta23.isSome then .error (.assertionError none)
    else set_mixing_angles_store tool st theta12 theta13 theta23 deltacp
  else
    if theta13.isNone then .error (.assertionError none)
    else if theta23.isNone then .error (.assertionError none)
    else set_mixing_angles_store tool st theta12 theta13 theta23 deltacp

/-- Function `get_mixing_angles()` (lines 694-704).  Returns the stored angles; for
nusquids the code is `raise Exception("TODO")`. -/
def get_mixing_angles (tool : String) (numNeutrinos : Nat) (st : CalcParams) :
    Except PyError (List (Option ℚ)) :=
  if tool = "deimos" then
    match st.deimos.thetaRad with
    | some ts => .ok (ts.map some)
    | none => .error .attributeError -- attribute read before any setter ran
  else if tool = "prob3" then
    if numNeutrinos ≠ 3 then .error (.assertionError none)
    else
      match st.prob3.theta12, st.prob3.theta13, st.prob3.theta23 with
      | some t12, some t13, some t23 => .ok [t12, t13, t23]
      | _, _, _ => .error (.exception "KeyError")
  else
    .error (.exception "TODO")

/-- The per-tool storage part of `set_mass_splittings` (lines 743-753). -/
def set_mass_splittings_store (tool : String) (st : CalcParams) (deltam21 : ℚ)
    (deltam31 : Option ℚ) : Except PyError CalcParams :=
  if tool = "nusquids" then
    .ok st -- Set_SquareMassDifference on the external object
  else if tool = "deimos" then
    .ok { st with deimos := { st.deimos with
            massSplittings := some ([deltam21] ++ deltam31.toList) } }
  else
    .ok { st with prob3 := { st.prob3 with
            deltam21 := some (some deltam21), deltam31 := some deltam31 } }

/-- Function `set_mass_splittings(deltam21, deltam31)` (lines 731-753). -/
def set_mass_splittings (tool : String) (numNeutrinos : Nat) (st : CalcParams)
    (deltam21 : ℚ) (deltam31 : Option ℚ) : Except PyError CalcParams :=
  if numNeutrinos = 2 then
    if deltam31.isSome then .error (.assertionError none)
    else set_mass_splittings_store tool st deltam21 deltam31
  else
    if deltam31.isNone then .error (.assertionError none)
    else set_mass_splittings_store tool st deltam21 deltam31

/-- Function `get_mass_splittings()` (lines 756-771).  The nusquids branch reads the
external solver object; that read is modelled by the abstract backend
accessor `nusquidsGet` (index 1 and, for three flavors, index 2). -/
def get_mass_splittings (nusquidsGet : Nat → ℚ) (tool : String)
    (numNeutrinos : Nat) (st : CalcParams) : Except PyError (List (Option ℚ)) :=
  if tool = "nusquids" then
    if numNeutrinos > 2 then .ok [some (nusquidsGet 1), some (nusquidsGet 2)]
    else .ok [some (nusquidsGet 1)]
  else if tool = "deimos" then
    match st.deimos.massSplittings with
    | some ms => .ok (ms.map some)
    | none => .error .attributeError
  else
    match st.prob3.deltam21, st.prob3.deltam31 with
    | some d21, some d31 => .ok [d21, d31]
    | _, _ => .error (.exception "KeyError")

/-!
## Descending-grid handling in the deimos dispatch

`_calc_osc_prob_deimos` (lines 2039-2066).  The solver call is abstract: a
function from the (ascending) distance grid to the
`[energy][distance][flavor]` result tensor.
-/

/-- Flip `np.flip(results, axis=1)`: reverse the distance axis of an
`[energy][distance][flavor]` tensor. -/
def flipAxis1 (results : List (List (List ℚ))) : List (List (List ℚ)) :=
  results.map List.reverse

/-- Lines 2039-2066 of `_calc_osc_prob_deimos`: flip a descending distance
grid (detected by `distance_km[-1] < distance_km[0]`) to ascending before
calling the solver, and flip the result back along the distance axis.
`solver` is the external `DensityMatrixOscSolver.calc_osc_probs` call.
(`headI`/`getLastI` default to `0` on `[]`; the grids reaching this code are
nonempty.) -/
def deimosDistanceDispatch (solver : List ℚ → List (List (List ℚ)))
    (distanceKm : List ℚ) : List (List (List ℚ)) :=
  if distanceKm.getLastI < distanceKm.headI then
    flipAxis1 (solver distanceKm.reverse)
  else
    solver distanceKm

/-!
## Flavor index lookup

`_get_flavor_index` (lines 2069-2087).
-/

/-- The dynamically typed `initial_flavor` argument: a string label or an
integer. -/
inductive FlavorArg where
  | str (s : String)
  | int (n : ℤ)
  deriving DecidableEq, Repr

/-- Function `_get_flavor_index(flavor)` (lines 2069-2087).  For a string argument the
integer index is computed (lines 2073-2079) but the final bounds check of
line 2085 compares the original string argument against the integer flavor
count, an unsupported comparison that raises `TypeError` in Python 3. -/
def get_flavor_index (numNeutrinos : Nat) : FlavorArg → Except PyError ℤ
  | .str s =>
    let _index : Option ℤ :=
      if s = "e" ∨ s = "nue" then some 0
      else if s = "mu" ∨ s = "numu" then some 1
      else if s = "tau" ∨ s = "nutau" then some 2
      else none
    -- line 2085: `assert flavor < self.num_neutrinos` with `flavor` a str
    .error .typeError
  | .int n =>
    if n = 0 ∨ n = 1 ∨ n = 2 then
      if n < (numNeutrinos : ℤ) then .ok n
      else .error (.assertionError none)
    else .error (.assertionError none)

/-!
## Post-validation of calc_osc_prob results

The tail of `calc_osc_prob` (lines 1384-1408).
-/

/-- A Python float: a finite value (modelled exactly) or one of the
non-finite values. -/
inductive PyFloat where
  | val (q : ℚ)
  | nan
  | inf
  | ninf
  deriving DecidableEq, Repr

/-- Model of `np.isfinite`. -/
def PyFloat.isFinite : PyFloat → Bool
  | .val _ => true
  | _ => false

/-- The finite value of a Python float (`0` for non-finite values); used only
to state sums of finite tensors. -/
def PyFloat.q : PyFloat → ℚ
  | .val x => x
  | _ => 0

/-- A 3-dimensional numpy array: shape plus entries (entries outside the
shape are irrelevant). -/
structure NpArray3 where
  dim1 : Nat
  dim2 : Nat
  dim3 : Nat
  entry : Nat → Nat → Nat → PyFloat

/-- Model of `np.all(np.isfinite(...))` over a 3-d array. -/
def allFinite (t : NpArray3) : Bool :=
  (List.range t.dim1).all fun i =>
    (List.range t.dim2).all fun j =>
      (List.range t.dim3).all fun k => (t.entry i j k).isFinite

/-- The probabilities at energy index `i` and distance index `j`, summed over
the final flavor axis. -/
def flavorSum (t : NpArray3) (i j : Nat) : ℚ :=
  ((List.range t.dim3).map fun k => (t.entry i j k).q).sum

/-- The tail of `calc_osc_prob` (lines 1384-1408): the output-shape assert of
lines 1385-1386, the squeeze of singleton axes (a pure re-indexing: when the
shape assert holds, the squeezed tensor holds exactly the same entries, so it
is modelled as the identity), and the finiteness assert of line 1406.  No
other check is performed on the result. -/
def calc_osc_prob_finalize (energySize distSize numNeutrinos : Nat)
    (oscProbs : NpArray3) : Except PyError NpArray3 :=
  if ¬ (oscProbs.dim1 = energySize ∧ oscProbs.dim2 = distSize
        ∧ oscProbs.dim3 = numNeutrinos) then
    .error (.assertionError none)
  else if ¬ allFinite oscProbs then
    .error (.assertionError (some "Found non-finite osc probs"))
  else
    .ok oscProbs

/-!
## Concrete inputs used by counterexamples and witnesses
-/

/-- The 9 by 9 real matrix whose only nonzero entry is a `1` at diagonal
position `k`. -/
def diagOneAt (k : Nat) : CMatrix :=
  ⟨9, 9, fun i j => if i = k ∧ j = k then 1 else 0, fun _ _ => 0⟩

/-- A 4 by 4 matrix with a negative entry and a non-real entry. -/
def badTwoFlavorMatrix : CMatrix :=
  ⟨4, 4, fun i j => if i = 0 ∧ j = 1 then -2 else 0,
         fun i j => if i = 2 ∧ j = 2 then 1 else 0⟩

/-- A finite 1 by 1 by 3 probability tensor whose flavor sum is 3/10. -/
def lowSumTensor : NpArray3 :=
  ⟨1, 1, 3, fun _ _ _ => .val (1/10)⟩

/-- The backend-call trace that the layered sequencer produces for layer
endpoints `[3, 5, 10]` and requested path length `5`: three evolve calls,
the third over a zero-length segment. -/
def overshootTrace : List NsqOp :=
  [NsqOp.setBody 13 1, NsqOp.setTrack 3, NsqOp.setInitialState, NsqOp.evolveState,
   NsqOp.setBody 13 1, NsqOp.setTrack 2, NsqOp.evolveState,
   NsqOp.setBody 13 1, NsqOp.setTrack 0, NsqOp.evolveState]

/-- A matter-settings state as left by a successful `layers` configuration. -/
def prevLayersSettings : MatterSettings :=
  { matter := "layers", layerEndpointKm := some [7],
    matterDensityGPerCm3 := some [3], electronFraction := some [1/2] }

end Deimos

namespace Deimos

/-! ## Helper lemmas -/

theorem headI_eq_iget_head? (l : List ℚ) : l.headI = l.head?.iget := by
  cases l <;> rfl

theorem headI_reverse (l : List ℚ) : l.reverse.headI = l.getLastI := by
  rw [headI_eq_iget_head?, List.head?_reverse, List.getLastI_eq_getLast?]

theorem getLastI_reverse (l : List ℚ) : l.reverse.getLastI = l.headI := by
  rw [List.getLastI_eq_getLast?, List.getLast?_reverse, headI_eq_iget_head?]

theorem ite_err_ok_iff {c : Prop} [Decidable c] {e : PyError}
    {rest : Except PyError Unit} :
    (if ¬ c then Except.error e else rest) = .ok () ↔ (c ∧ rest = .ok ()) := by
  by_cases h : c
  · rw [if_neg (not_not_intro h)]
    simp [h]
  · rw [if_pos h]
    simp [h]

theorem ite_err_skip {c : Prop} [Decidable c] (hc : c) (e : PyError)
    (rest : Except PyError Unit) :
    (if ¬ c then Except.error e else rest) = rest :=
  if_neg (not_not_intro hc)

theorem ite_err_hit {c : Prop} [Decidable c] (hc : ¬ c) (e : PyError)
    (rest : Except PyError Unit) :
    (if ¬ c then Except.error e else rest) = Except.error e :=
  if_pos hc

theorem ite_clip_eq_min (L e : ℚ) : (if L < e then L else e) = min e L := by
  rcases lt_or_ge L e with h | h
  · rw [if_pos h, min_eq_right h.le]
  · rw [if_neg (not_lt.mpr h), min_eq_left h]

/-- The layer loop never takes its bail-out branch when the running distance
stays at or below every endpoint, and then produces exactly the trace of the
specification function. -/
theorem layerLoop_eq_spec (L : ℚ) (layers : List (ℚ × ℚ × ℚ)) :
    ∀ s : ℚ, (layers.map Prod.fst).Chain' (· ≤ ·) →
      (∀ h : layers ≠ [], s ≤ (layers.head h).1) →
      layerLoop L layers s = layerTraceSpec L layers s := by
  induction layers with
  | nil => intro s _ _; rfl
  | cons hd tl ih =>
    intro s hchain hhead
    obtain ⟨e, d, f⟩ := hd
    have hse : s ≤ e := by simpa using hhead (by simp)
    have hchain2 : List.Chain' (· ≤ ·) (e :: tl.map Prod.fst) := by simpa using hchain
    obtain ⟨hrel, htl⟩ := List.chain'_cons'.mp hchain2
    have hnext : ∀ h : tl ≠ [], min e L ≤ (tl.head h).1 := by
      intro h
      refine le_trans (min_le_left e L) (hrel _ ?_)
      cases tl with
      | nil => exact absurd rfl h
      | cons b bt => simp
    show layerLoop L ((e, d, f) :: tl) s = layerTraceSpec L ((e, d, f) :: tl) s
    unfold layerLoop layerTraceSpec
    rw [if_neg (not_lt.mpr hse)]
    dsimp only
    have hadv : s + ((if L < e then L else e) - s) = min e L := by
      rw [ite_clip_eq_min]; ring
    rw [hadv, ih (min e L) htl hnext, ite_clip_eq_min]

theorem countEvolveCalls_append (a b : List NsqOp) :
    countEvolveCalls (a ++ b) = countEvolveCalls a + countEvolveCalls b := by
  simp [countEvolveCalls, List.filter_append]

/-- The specification trace contains exactly one evolve call per layer. -/
theorem countEvolveCalls_spec (L : ℚ) (layers : List (ℚ × ℚ × ℚ)) :
    ∀ s : ℚ, countEvolveCalls (layerTraceSpec L layers s) = layers.length := by
  induction layers with
  | nil => intro s; rfl
  | cons hd tl ih =>
    intro s
    obtain ⟨e, d, f⟩ := hd
    show countEvolveCalls (_ ++ _) = _
    rw [countEvolveCalls_append, countEvolveCalls_append, countEvolveCalls_append, ih]
    split_ifs <;> simp [countEvolveCalls, List.filter, NsqOp.isEvolve] <;> omega

/-- Acceptance characterization of the 3-flavor check chain. -/
theorem check3flavor_ok_iff (sqrt3 : ℚ) (D : CMatrix) :
    check3flavor sqrt3 D = .ok () ↔
      (shapeOk9 D = true ∧ imagZero D = true ∧ entriesNonneg D = true ∧ symOk D = true ∧
       0 ≤ aVal1 D ∧ 0 ≤ aVal2 D ∧ 0 ≤ aVal3 D ∧
       0 ≤ aVal4 sqrt3 D ∧ 0 ≤ aVal5 sqrt3 D ∧ 0 ≤ aVal6 sqrt3 D ∧ 0 ≤ aVal7 sqrt3 D ∧
       0 ≤ aVal8 D ∧ quad12Ok D = true ∧ quad13Ok D = true ∧ quad23Ok D = true ∧
       quadB38Ok sqrt3 D = true) := by
  unfold check3flavor
  simp only [ite_err_ok_iff, and_true]

/-! ## Claim theorems -/

/-- C10: every string flavor label passed to `_get_flavor_index` makes it
raise `TypeError` (the bounds check compares the original string argument
with the integer flavor count); only integer flavors in `{0, 1, 2}` that are
less than the configured flavor count are accepted, and they are returned
unchanged. -/
theorem claim_C10_string_flavor_raises (numNeutrinos : Nat) (s : String) (k : ℤ) :
    get_flavor_index numNeutrinos (.str s) = .error .typeError ∧
    (get_flavor_index numNeutrinos (.int k) = .ok k ↔
      ((k = 0 ∨ k = 1 ∨ k = 2) ∧ k < (numNeutrinos : ℤ))) := by
  refine ⟨rfl, ?_⟩
  simp only [get_flavor_index]
  split_ifs with h1 h2 <;> simp_all

/-- C4 (amended): for a 2-flavor calculator `check_decoherence_D_matrix`
performs no checks at all: it prints that the inequality checks are not
implemented for a 2 neutrino system and accepts every matrix, whatever its
entries. -/
theorem claim_C4_two_flavor_no_checks (sqrt3 : ℚ) (D : CMatrix) :
    check_decoherence_D_matrix 2 sqrt3 D =
      (["Checks on decoherence D matrix inequalities not yet implemented for a 2 neutrino system"],
       .ok ()) := by
  rfl

/-- C4 counterexample: a 2-flavor D matrix with a negative entry (and a
non-real entry) is accepted by `check_decoherence_D_matrix`, contradicting
the claim that any such matrix is rejected. -/
theorem claim_C4_counterexample :
    (check_decoherence_D_matrix 2 (26/15) badTwoFlavorMatrix).2 = .ok ()
      ∧ badTwoFlavorMatrix.re 0 1 < 0 ∧ badTwoFlavorMatrix.im 2 2 ≠ 0 := by
  refine ⟨rfl, ?_, ?_⟩ <;> norm_num [badTwoFlavorMatrix]

/-- C2 (amended): the post-validation at the tail of `calc_osc_prob` accepts
a result exactly when its shape matches the expected
`[energy][distance][flavor]` shape and every entry is finite; it performs no
sum-over-flavor unitarity check. -/
theorem claim_C2_post_validation (es ds nf : Nat) (t : NpArray3) :
    calc_osc_prob_finalize es ds nf t = .ok t ↔
      ((t.dim1 = es ∧ t.dim2 = ds ∧ t.dim3 = nf) ∧ allFinite t = true) := by
  unfold calc_osc_prob_finalize
  split_ifs with h1 h2 <;> simp_all

/-- C2 counterexample: a finite probability tensor whose probabilities sum to
3/10 over final flavor passes post-validation and is returned, although no
decoherence is configured anywhere in the call; the claimed sum-to-one check
does not exist. -/
theorem claim_C2_counterexample :
    calc_osc_prob_finalize 1 1 3 lowSumTensor = .ok lowSumTensor ∧
    flavorSum lowSumTensor 0 0 = 3/10 := by
  refine ⟨rfl, ?_⟩
  norm_num [flavorSum, lowSumTensor, PyFloat.q, List.range_succ]

/-- C9: a descending distance grid (last entry below the first) is reversed
to ascending before the deimos solver is called and the solver result is
flipped back along the distance axis, so the returned tensor equals the flip,
along the distance axis, of the result of the same call made with the
ascending grid (which is dispatched unflipped). -/
theorem claim_C9_descending_grid (solver : List ℚ → List (List (List ℚ)))
    (dist : List ℚ) (h : dist.getLastI < dist.headI) :
    deimosDistanceDispatch solver dist
        = flipAxis1 (deimosDistanceDispatch solver dist.reverse) ∧
    deimosDistanceDispatch solver dist.reverse = solver dist.reverse := by
  have h2 : ¬ (dist.reverse.getLastI < dist.reverse.headI) := by
    rw [getLastI_reverse, headI_reverse]
    exact not_lt.mpr h.le
  unfold deimosDistanceDispatch
  rw [if_pos h, if_neg h2]
  exact ⟨rfl, rfl⟩

/-- C9 witness: the theorem applied to the concrete descending grid
`[3, 2, 1]` and a concrete solver. -/
theorem claim_C9_witness :
    deimosDistanceDispatch (fun ds => [ds.map fun d => [d]]) [3, 2, 1]
        = flipAxis1 (deimosDistanceDispatch (fun ds => [ds.map fun d => [d]]) [(3:ℚ), 2, 1].reverse) ∧
    deimosDistanceDispatch (fun ds => [ds.map fun d => [d]]) [(3:ℚ), 2, 1].reverse
        = [[[(1:ℚ)], [2], [3]]] := by
  have h := claim_C9_descending_grid (fun ds => [ds.map fun d => [d]]) [3, 2, 1] (by decide)
  exact ⟨h.1, h.2.trans (by decide)⟩

/-- C8 (amended): after the setters succeed, the angle and mass-splitting
getters return exactly the supplied values for the deimos backend (both
flavor counts; solver storage modelled from the spec) and for the 3-flavor
prob3 backend; the nusquids backend's `get_mixing_angles` unconditionally
raises, so the round-trip fails there. -/
theorem claim_C8_roundtrip (st : CalcParams) (t12 t13 t23 dcp dm21 dm31 : ℚ)
    (n : Nat) (nusquidsGet : Nat → ℚ) :
    ((set_mixing_angles "deimos" 3 st t12 (some t13) (some t23) dcp).bind
        (get_mixing_angles "deimos" 3) = .ok [some t12, some t13, some t23]) ∧
    ((set_mixing_angles "deimos" 2 st t12 none none dcp).bind
        (get_mixing_angles "deimos" 2) = .ok [some t12]) ∧
    ((set_mixing_angles "prob3" 3 st t12 (some t13) (some t23) dcp).bind
        (get_mixing_angles "prob3" 3) = .ok [some t12, some t13, some t23]) ∧
    ((set_mass_splittings "deimos" 3 st dm21 (some dm31)).bind
        (get_mass_splittings nusquidsGet "deimos" 3) = .ok [some dm21, some dm31]) ∧
    ((set_mass_splittings "deimos" 2 st dm21 none).bind
        (get_mass_splittings nusquidsGet "deimos" 2) = .ok [some dm21]) ∧
    ((set_mass_splittings "prob3" 3 st dm21 (some dm31)).bind
        (get_mass_splittings nusquidsGet "prob3" 3) = .ok [some dm21, some dm31]) ∧
    (get_mixing_angles "nusquids" n st = .error (.exception "TODO")) := by
  exact ⟨rfl, rfl, rfl, rfl, rfl, rfl, rfl⟩

/-- C8 counterexample: on the nusquids backend, setting the mixing angles
succeeds but reading them back raises the `TODO` exception instead of
returning the supplied values, so the round-trip fails for that backend. -/
theorem claim_C8_counterexample :
    (set_mixing_angles "nusquids" 3 {} (3/10) (some (1/10)) (some (4/5)) 0).bind
        (get_mixing_angles "nusquids" 3) = .error (.exception "TODO") := by
  rfl

/-- C3 (amended): for a 3-flavor calculator `check_decoherence_D_matrix`
accepts `D` exactly when, in source order, the shape is 9 by 9, all entries
are real, all entries are non-negative, the off-diagonal pairs match under
the index transpose, the eight linear combinations `a1..a8` are all
non-negative, the three quadratic bounds on `b12`, `b13`, `b23` hold, and the
quadratic bound on the `b38` coupling against `a3*a8` holds; each failure
raises an error, but the error raised by a failing `a6` check names `a1`
(and the reality, non-negativity, symmetry and quadratic checks raise
unnamed errors), and no correction or clamping is performed. -/
theorem claim_C3_three_flavor_checks (sqrt3 : ℚ) (D : CMatrix) :
    ((check_decoherence_D_matrix 3 sqrt3 D).2 = .ok () ↔
      (shapeOk9 D = true ∧ imagZero D = true ∧ entriesNonneg D = true ∧ symOk D = true ∧
       0 ≤ aVal1 D ∧ 0 ≤ aVal2 D ∧ 0 ≤ aVal3 D ∧
       0 ≤ aVal4 sqrt3 D ∧ 0 ≤ aVal5 sqrt3 D ∧ 0 ≤ aVal6 sqrt3 D ∧ 0 ≤ aVal7 sqrt3 D ∧
       0 ≤ aVal8 D ∧ quad12Ok D = true ∧ quad13Ok D = true ∧ quad23Ok D = true ∧
       quadB38Ok sqrt3 D = true)) ∧
    (shapeOk9 D = true → imagZero D = true → entriesNonneg D = true → symOk D = true →
     0 ≤ aVal1 D → 0 ≤ aVal2 D → 0 ≤ aVal3 D →
     0 ≤ aVal4 sqrt3 D → 0 ≤ aVal5 sqrt3 D → aVal6 sqrt3 D < 0 →
     (check_decoherence_D_matrix 3 sqrt3 D).2
        = .error (.assertionError (some "Inequality failure (a1)"))) := by
  constructor
  · exact check3flavor_ok_iff sqrt3 D
  · intro h1 h2 h3 h4 h5 h6 h7 h8 h9 h10
    show check3flavor sqrt3 D = _
    unfold check3flavor
    rw [ite_err_skip h1, ite_err_skip h2, ite_err_skip h3, ite_err_skip h4,
        ite_err_skip h5, ite_err_skip h6, ite_err_skip h7, ite_err_skip h8,
        ite_err_skip h9, ite_err_hit (not_le.mpr h10)]

/-- C3 witness: the amended theorem applied to the concrete matrix whose only
nonzero entry is `D[6,6] = 1`, which passes every check up to `a5` and
violates `a6`. -/
theorem claim_C3_witness :
    (check_decoherence_D_matrix 3 (26/15) (diagOneAt 6)).2
      = .error (.assertionError (some "Inequality failure (a1)")) := by
  refine (claim_C3_three_flavor_checks (26/15) (diagOneAt 6)).2 ?_ ?_ ?_ ?_ ?_ ?_ ?_ ?_ ?_ ?_
  · norm_num [shapeOk9, diagOneAt]
  · simp [imagZero, allEntries, diagOneAt]
  · norm_num [entriesNonneg, allEntries, diagOneAt, List.range_succ]
  · norm_num [symOk, offDiagPairs, diagOneAt]
  · norm_num [aVal1, gDiag, diagOneAt]
  · norm_num [aVal2, gDiag, diagOneAt]
  · norm_num [aVal3, gDiag, diagOneAt]
  · norm_num [aVal4, gDiag, bOff, diagOneAt]
  · norm_num [aVal5, gDiag, bOff, diagOneAt]
  · norm_num [aVal6, gDiag, bOff, diagOneAt]

/-- C3 counterexample: on the matrix whose only nonzero entry is
`D[6,6] = 1`, the violated inequality is `a6` (`a6 < 0` while `a1 ≥ 0`), yet
the raised error names `a1`: the error does not name the specific inequality
violated. -/
theorem claim_C3_counterexample :
    (check_decoherence_D_matrix 3 (26/15) (diagOneAt 6)).2
        = .error (.assertionError (some "Inequality failure (a1)")) ∧
    aVal6 (26/15) (diagOneAt 6) < 0 ∧ 0 ≤ aVal1 (diagOneAt 6) := by
  refine ⟨?_, ?_, ?_⟩
  · norm_num [check_decoherence_D_matrix, check3flavor, shapeOk9, imagZero,
      entriesNonneg, symOk, allEntries, offDiagPairs, diagOneAt, gDiag, bOff,
      aVal1, aVal2, aVal3, aVal4, aVal5, aVal6, List.range_succ]
  · norm_num [aVal6, gDiag, bOff, diagOneAt]
  · norm_num [aVal1, gDiag, diagOneAt]

/-- C5 (amended): for a 3-flavor calculator the validator rejects every D
matrix that is all zeros except one negative diagonal entry and accepts the
all-zeros matrix; for a 2-flavor calculator it performs no checks, so it
accepts the all-zeros matrix but also accepts the negative-diagonal
matrices. -/
theorem claim_C5_zero_and_negative_diagonal (sqrt3 x : ℚ) (hx : 0 < x) :
    (∀ k : Fin 9, (check_decoherence_D_matrix 3 sqrt3 (negDiagMatrix 3 k x)).2
        = .error (.assertionError none)) ∧
    (check_decoherence_D_matrix 3 sqrt3 (zeroMatrix 3)).2 = .ok () ∧
    (∀ k : Fin 4, (check_decoherence_D_matrix 2 sqrt3 (negDiagMatrix 2 k x)).2 = .ok ()) ∧
    (check_decoherence_D_matrix 2 sqrt3 (zeroMatrix 2)).2 = .ok () := by
  refine ⟨?_, ?_, fun k => rfl, rfl⟩
  · intro k
    have h1 : shapeOk9 (negDiagMatrix 3 k x) = true := by
      norm_num [shapeOk9, negDiagMatrix]
    have h2 : imagZero (negDiagMatrix 3 k x) = true := by
      simp [imagZero, allEntries, negDiagMatrix]
    have h3 : ¬ (entriesNonneg (negDiagMatrix 3 k x) = true) := by
      rw [Bool.not_eq_true]
      unfold entriesNonneg allEntries
      rw [List.all_eq_false]
      refine ⟨(k : Nat), List.mem_range.mpr k.isLt, ?_⟩
      rw [Bool.not_eq_true, List.all_eq_false]
      refine ⟨(k : Nat), List.mem_range.mpr k.isLt, ?_⟩
      simp only [negDiagMatrix, and_self, if_true, decide_eq_true_eq, if_pos rfl]
      simp only [not_le]
      linarith
    show check3flavor sqrt3 (negDiagMatrix 3 k x) = _
    unfold check3flavor
    rw [ite_err_skip h1, ite_err_skip h2, ite_err_hit h3]
  · show check3flavor sqrt3 (zeroMatrix 3) = _
    rw [check3flavor_ok_iff]
    refine ⟨by decide, by decide, by decide, by decide, ?_, ?_, ?_, ?_, ?_, ?_, ?_, ?_,
      ?_, ?_, ?_, ?_⟩ <;>
      norm_num [aVal1, aVal2, aVal3, aVal4, aVal5, aVal6, aVal7, aVal8,
        quad12Ok, quad13Ok, quad23Ok, quadB38Ok, gDiag, bOff, zeroMatrix]

/-- C5 witness: the amended theorem applied at `x = 1`. -/
theorem claim_C5_witness :
    (check_decoherence_D_matrix 3 (26/15) (negDiagMatrix 3 4 1)).2
        = .error (.assertionError none) ∧
    (check_decoherence_D_matrix 3 (26/15) (zeroMatrix 3)).2 = .ok () ∧
    (check_decoherence_D_matrix 2 (26/15) (negDiagMatrix 2 1 1)).2 = .ok () ∧
    (check_decoherence_D_matrix 2 (26/15) (zeroMatrix 2)).2 = .ok () := by
  have h := claim_C5_zero_and_negative_diagonal (26/15) 1 (by norm_num)
  exact ⟨h.1 (4 : Fin 9), h.2.1, h.2.2.1 (1 : Fin 4), h.2.2.2⟩

/-- C1 (amended): for a Layered matter model with ascending non-negative
layer endpoints covering the requested path length `L`, the sequencer issues
exactly one backend evolve call per layer (not per clipped sub-interval): the
bail-out guard `L_so_far > endpoint` never fires for ascending endpoints, so
layers lying at or beyond `L` still produce evolve calls over zero-length
segments.  Each segment length is `min(layer endpoint, L)` minus the distance
covered so far, and the initial flavor state is supplied exactly on segments
that start at distance zero. -/
theorem claim_C1_layer_sequencer (endpoints densities efracs : List ℚ) (L : ℚ)
    (hne : endpoints ≠ [])
    (hlen1 : densities.length = endpoints.length)
    (hlen2 : efracs.length = endpoints.length)
    (hasc : endpoints.Chain' (· ≤ ·))
    (hfirst : 0 ≤ endpoints.head hne)
    (hcover : L ≤ endpoints.getLast hne) :
    calcLayersTrace endpoints densities efracs L =
      .ok (layerTraceSpec L (endpoints.zip (densities.zip efracs)) 0) ∧
    countEvolveCalls (layerTraceSpec L (endpoints.zip (densities.zip efracs)) 0)
      = endpoints.length := by
  have hzlen : (densities.zip efracs).length = endpoints.length := by
    rw [List.length_zip, hlen1, hlen2, min_self]
  have hzip_fst : (endpoints.zip (densities.zip efracs)).map Prod.fst = endpoints := by
    apply List.map_fst_zip
    rw [hzlen]
  have hhead0 : ∀ h : (endpoints.zip (densities.zip efracs)) ≠ [],
      (0 : ℚ) ≤ ((endpoints.zip (densities.zip efracs)).head h).1 := by
    intro h
    cases endpoints with
    | nil => exact absurd rfl hne
    | cons e et =>
      cases densities with
      | nil => simp at hlen1
      | cons d dt =>
        cases efracs with
        | nil => simp at hlen2
        | cons f ft => simpa using hfirst
  constructor
  · unfold calcLayersTrace
    rw [dif_neg hne, if_neg (not_lt.mpr hcover),
        layerLoop_eq_spec L _ 0 (by rw [hzip_fst]; exact hasc) hhead0]
  · rw [countEvolveCalls_spec, List.length_zip, hzlen, min_self]

/-- C1 witness: the amended theorem applied to endpoints `[3, 5, 10]` with
requested length `5`. -/
theorem claim_C1_witness :
    calcLayersTrace [3, 5, 10] [13, 13, 13] [1, 1, 1] 5 =
      .ok (layerTraceSpec 5 ([(3 : ℚ), 5, 10].zip ([(13 : ℚ), 13, 13].zip [(1 : ℚ), 1, 1])) 0) ∧
    countEvolveCalls
        (layerTraceSpec 5 ([(3 : ℚ), 5, 10].zip ([(13 : ℚ), 13, 13].zip [(1 : ℚ), 1, 1])) 0)
      = 3 := by
  have h := claim_C1_layer_sequencer [3, 5, 10] [13, 13, 13] [1, 1, 1] 5
    (by simp) rfl rfl (by norm_num [List.chain'_cons])
    (by norm_num) (by norm_num [List.getLast])
  exact ⟨h.1, h.2⟩

/-- C1 counterexample: with layer endpoints `[3, 5, 10]` and requested path
length `5`, the code issues three evolve calls, the third over a zero-length
segment after the covered distance already equals `5` — it neither skips the
zero-length segment nor stops once the covered distance reaches `L`, as the
claim states. -/
theorem claim_C1_counterexample :
    calcLayersTrace [3, 5, 10] [13, 13, 13] [1, 1, 1] 5 = .ok overshootTrace ∧
    countEvolveCalls overshootTrace = 3 ∧
    NsqOp.setTrack 0 ∈ overshootTrace := by
  refine ⟨?_, by decide, by decide⟩
  norm_num [calcLayersTrace, layerLoop, List.getLast, overshootTrace]
  exact fun h => absurd h (List.cons_ne_nil _ _)

/-- C6: for a Layered matter model, a requested path length `L` strictly
beyond the final layer endpoint fails with the incomplete-coverage assertion
error, and a final endpoint at or beyond `L` lets the sequencer run to
completion and return its backend-call trace. -/
theorem claim_C6_layer_coverage (endpoints densities efracs : List ℚ) (L : ℚ)
    (hne : endpoints ≠ []) :
    (endpoints.getLast hne < L →
      calcLayersTrace endpoints densities efracs L =
        .error (.assertionError (some "Matter layers do not cover the full baseline"))) ∧
    (L ≤ endpoints.getLast hne →
      calcLayersTrace endpoints densities efracs L =
        .ok (layerLoop L (endpoints.zip (densities.zip efracs)) 0)) := by
  unfold calcLayersTrace
  rw [dif_neg hne]
  constructor
  · intro h
    rw [if_pos h]
  · intro h
    rw [if_neg (not_lt.mpr h)]

/-- C6 witness: the theorem applied to endpoints `[2, 4]` at both a covered
length (`3`) and an uncovered one (`5`). -/
theorem claim_C6_witness :
    calcLayersTrace [2, 4] [3, 11] [1, 1] 5 =
      .error (.assertionError (some "Matter layers do not cover the full baseline")) ∧
    calcLayersTrace [2, 4] [3, 11] [1, 1] 3 =
      .ok (layerLoop 3 ([(2 : ℚ), 4].zip ([(3 : ℚ), 11].zip [(1 : ℚ), 1])) 0) := by
  constructor
  · exact (claim_C6_layer_coverage [2, 4] [3, 11] [1, 1] 5 (by simp)).1
      (by norm_num [List.getLast])
  · exact (claim_C6_layer_coverage [2, 4] [3, 11] [1, 1] 3 (by simp)).2
      (by norm_num [List.getLast])

/-- Every `set_matter` outcome either succeeds or leaves the bare variant
tag as the stored matter settings. -/
theorem set_matter_fst_cases (tool : String) (atm : Bool) (prev : MatterSettings)
    (matter : String) (kw : MatterKw) :
    (set_matter tool atm prev matter kw).1 = bareSettings matter ∨
    (set_matter tool atm prev matter kw).2 = .ok () := by
  unfold set_matter
  repeat' split
  all_goals simp

/-- C7 (amended): `set_matter` resets the stored matter settings to the bare
new variant tag before any validation runs, so the result never depends on
the previously configured matter model, and a call that fails validation
leaves the bare new variant tag — the previous matter model is lost, not
preserved.  (On success the new model is stored wholesale.) -/
theorem claim_C7_set_matter_not_atomic (tool : String) (atm : Bool)
    (prev prev2 : MatterSettings) (matter : String) (kw : MatterKw) (e : PyError) :
    (set_matter tool atm prev matter kw = set_matter tool atm prev2 matter kw) ∧
    ((set_matter tool atm prev matter kw).2 = .error e →
      (set_matter tool atm prev matter kw).1 = bareSettings matter) := by
  refine ⟨rfl, fun herr => ?_⟩
  refine (set_matter_fst_cases tool atm prev matter kw).resolve_right ?_
  rw [herr]
  simp

/-- C7 witness: the amended theorem applied to a failing `layers` call
(missing keyword arguments) made on a previously configured layers model. -/
theorem claim_C7_witness :
    (set_matter "nusquids" false prevLayersSettings "layers" {}).1
      = bareSettings "layers" := by
  exact (claim_C7_set_matter_not_atomic "nusquids" false prevLayersSettings
    prevLayersSettings "layers" {} (.assertionError none)).2 rfl

/-- C7 counterexample: a `set_matter("layers")` call that fails its keyword
validation does not leave the previously configured matter model unchanged:
the stored settings become the bare `layers` tag, losing the previous
model. -/
theorem claim_C7_counterexample :
    (set_matter "nusquids" false prevLayersSettings "layers" {}).2
      = .error (.assertionError none) ∧
    (set_matter "nusquids" false prevLayersSettings "layers" {}).1
      ≠ prevLayersSettings := by
  exact ⟨rfl, by decide⟩

/-- C5 counterexample: a 2-flavor D matrix that is all zeros except one
negative diagonal entry is accepted by the validator, contradicting the claim
that it is rejected for every supported flavor count. -/
theorem claim_C5_counterexample :
    (check_decoherence_D_matrix 2 (26/15) (negDiagMatrix 2 2 1)).2 = .ok ()
      ∧ (negDiagMatrix 2 2 1).re 2 2 < 0 := by
  exact ⟨rfl, by norm_num [negDiagMatrix]⟩

end Deimos
